import Mathlib

/-!
Verification of the private-captcha python client library.

The repository ships the package root (src/private_captcha/__init__.py) and
the test suite (src/test_client.py).  The modules implementing the pipeline
(client.py, models.py, exceptions.py) are not present under src/, so the data
model and operations below are modelled from the specification; every such
definition carries a doc comment starting with "Modelled from the spec:".
Time quantities (backoff delays, jitter factors) are embedded as rationals.
-/

namespace PrivateCaptcha

/-- Modelled from the spec: the closed enumeration of service outcome codes
(models.py is missing from src/).  The test suite imports
private_captcha.models.VerifyCode with members TEST_PROPERTY_ERROR and
PARSE_RESPONSE_ERROR; the spec names SUCCESS alongside further
service-defined codes, which are modelled by the otherCode constructor. -/
inductive VerifyCode where
  | SUCCESS
  | TEST_PROPERTY_ERROR
  | PARSE_RESPONSE_ERROR
  | otherCode (raw : Nat)
  deriving DecidableEq

/-- Modelled from the spec: the decoded verification outcome (models.py is
missing from src/): a success flag plus one outcome code. -/
structure VerifyOutput where
  success : Bool
  code : VerifyCode
  deriving DecidableEq

/-- Modelled from the spec: transport-level faults the retrier sees
(connection refused, DNS failure, timeout); client.py is missing from src/. -/
inductive TransportFault where
  | connectionRefused
  | dnsFailure
  | timeout
  deriving DecidableEq

/-- Modelled from the spec: the wire response body as the Response Decoder
classifies it (client.py / models.py missing from src/): a well-formed body
carrying a success flag and a code, a body reporting the recognized benign
test-marker condition, or a body that cannot be parsed into the expected
structure. -/
inductive WireBody where
  | wellFormed (success : Bool) (code : VerifyCode)
  | testMarker
  | unparseable (raw : String)
  deriving DecidableEq

/-- Modelled from the spec: the Response Decoder (client.py missing from
src/).  It is a total function: a well-formed body yields its flag and code,
the benign test-marker condition yields success with TEST_PROPERTY_ERROR, and
an unparseable body yields the classified outcome success=false with
PARSE_RESPONSE_ERROR rather than an exception. -/
def decodeResponse : WireBody → VerifyOutput
  | WireBody.wellFormed s c => { success := s, code := c }
  | WireBody.testMarker => { success := true, code := VerifyCode.TEST_PROPERTY_ERROR }
  | WireBody.unparseable _ => { success := false, code := VerifyCode.PARSE_RESPONSE_ERROR }

/-- Modelled from the spec: the library's exceptions (exceptions.py missing
from src/): APIKeyError at construction, SolutionError for empty/missing
payloads, and VerificationFailedError carrying the attempts made and the
last transport fault. -/
inductive PrivateCaptchaError where
  | apiKeyError
  | solutionError
  | verificationFailedError (attempts : Nat) (lastFault : TransportFault)
  deriving DecidableEq

/-- Modelled from the spec: outcome of one full retrier run before the facade
turns it into a return value or an exception. -/
inductive VerifyResult where
  | output (o : VerifyOutput)
  | failed (attempts : Nat) (lastFault : TransportFault)
  deriving DecidableEq

/-- Modelled from the spec: the un-jittered backoff delay before the retry
that follows a failure of the given attempt: the exponential base times
2^(attempt-1), capped at max_backoff_seconds. -/
def backoffDelay (max_backoff_seconds base : ℚ) (attempt : Nat) : ℚ :=
  min max_backoff_seconds (base * 2 ^ (attempt - 1))

/-- Observable trace of one Transport Retrier run: the final result, the
backoff sleeps performed (in order), and the attempt numbers actually issued
to the transport (in order). -/
structure RetryTrace where
  result : VerifyResult
  sleeps : List ℚ
  issued : List Nat
  deriving DecidableEq

/-- Modelled from the spec: the Transport Retrier loop (client.py missing
from src/).  The transport is an oracle from attempt number to either a
fault or a raw response body; the jitter draw is an oracle from attempt
number to a factor.  remaining counts the retries still allowed after the
current attempt, so the run starting at attempt 1 with remaining = attempts-1
makes at most the requested number of attempts.  A received response (any
body) is decoded and returned immediately; a fault with no retries left
yields the failed result carrying the current attempt number and that fault;
otherwise the loop sleeps the capped exponential delay times the jitter draw
and reissues with the next attempt number. -/
def retryLoop (transport : Nat → Sum TransportFault WireBody)
    (max_backoff_seconds base : ℚ) (jitter : Nat → ℚ) :
    Nat → Nat → RetryTrace
  | attempt, 0 =>
    match transport attempt with
    | Sum.inr body =>
      { result := VerifyResult.output (decodeResponse body), sleeps := [], issued := [attempt] }
    | Sum.inl fault =>
      { result := VerifyResult.failed attempt fault, sleeps := [], issued := [attempt] }
  | attempt, r + 1 =>
    match transport attempt with
    | Sum.inr body =>
      { result := VerifyResult.output (decodeResponse body), sleeps := [], issued := [attempt] }
    | Sum.inl _ =>
      let rest := retryLoop transport max_backoff_seconds base jitter (attempt + 1) r
      { result := rest.result,
        sleeps := backoffDelay max_backoff_seconds base attempt * jitter attempt :: rest.sleeps,
        issued := attempt :: rest.issued }

/-- Modelled from the spec: default production domain (client.py missing
from src/). -/
def DEFAULT_DOMAIN : String := "api.privatecaptcha.com"

/-- Modelled from the spec: the default form-field constant exported by
client.py (missing from src/); the exact string is service-defined, the
claims only depend on it being a fixed key name. -/
def DEFAULT_FORM_FIELD : String := "private-captcha-solution"

/-- Modelled from the spec: the backoff base constant; the spec leaves its
exact value unspecified, writing the delay as base * 2^(attempt-1). -/
def backoffBase : ℚ := 1

/-- An api_key that is empty after trimming: every character is whitespace
(an empty string trivially satisfies this). -/
def blank (s : String) : Bool := s.toList.all (fun ch => ch.isWhitespace)

/-- Modelled from the spec: the client facade's immutable configuration,
with the fully-resolved endpoint stored at construction (client.py missing
from src/). -/
structure Client where
  api_key : String
  domain : String
  timeout : ℚ
  form_field : String
  endpoint : String
  deriving DecidableEq

/-- Modelled from the spec: Client construction (client.py missing from
src/): fails with APIKeyError when the api_key is empty after trimming,
otherwise produces the client with the resolved endpoint. -/
def mkClient (api_key domain : String) (timeout : ℚ) (form_field : String) :
    Except PrivateCaptchaError Client :=
  if blank api_key then Except.error PrivateCaptchaError.apiKeyError
  else Except.ok
    { api_key := api_key, domain := domain, timeout := timeout, form_field := form_field,
      endpoint := "https://" ++ domain ++ "/verify" }

/-- Conversion of the retrier's final result into the facade's outcome: a
received output is an ordinary return value, an exhausted budget surfaces as
VerificationFailedError. -/
def toOutcome : VerifyResult → Except PrivateCaptchaError VerifyOutput
  | VerifyResult.output o => Except.ok o
  | VerifyResult.failed n fault =>
    Except.error (PrivateCaptchaError.verificationFailedError n fault)

/-- Observable trace of one verify call: the outcome (value or exception),
the sleeps performed and the attempt numbers issued to the transport. -/
structure VerifyRun where
  outcome : Except PrivateCaptchaError VerifyOutput
  sleeps : List ℚ
  issued : List Nat

/-- The run of a call that raises before any network activity. -/
def noNetworkRun (e : PrivateCaptchaError) : VerifyRun :=
  { outcome := Except.error e, sleeps := [], issued := [] }

/-- Modelled from the spec: Client.verify (client.py missing from src/):
an empty solution raises SolutionError before any network activity;
otherwise the Transport Retrier runs starting at attempt 1 with the
caller-tunable attempts and max_backoff_seconds, and its result is
surfaced. -/
def Client.verify (_c : Client) (transport : Nat → Sum TransportFault WireBody)
    (jitter : Nat → ℚ) (solution : String) (max_backoff_seconds : ℚ)
    (attempts : Nat) : VerifyRun :=
  if solution = "" then noNetworkRun PrivateCaptchaError.solutionError
  else
    let t := retryLoop transport max_backoff_seconds backoffBase jitter 1 (attempts - 1)
    { outcome := toOutcome t.result, sleeps := t.sleeps, issued := t.issued }

/-- Modelled from the spec: Client.verify_request (client.py missing from
src/): looks up the configured form_field in the caller-supplied mapping,
fails with SolutionError if the key is absent or its value empty, and
otherwise calls verify with the found value unchanged. -/
def Client.verify_request (c : Client) (transport : Nat → Sum TransportFault WireBody)
    (jitter : Nat → ℚ) (fields : String → Option String)
    (max_backoff_seconds : ℚ) (attempts : Nat) : VerifyRun :=
  match fields c.form_field with
  | none => noNetworkRun PrivateCaptchaError.solutionError
  | some v =>
    if v = "" then noNetworkRun PrivateCaptchaError.solutionError
    else c.verify transport jitter v max_backoff_seconds attempts

/-- A concrete client configuration used to instantiate the theorems on
explicit inputs. -/
def testClient : Client :=
  { api_key := "k", domain := DEFAULT_DOMAIN, timeout := 1, form_field := DEFAULT_FORM_FIELD,
    endpoint := "https://" ++ DEFAULT_DOMAIN ++ "/verify" }

/-- When the transport faults on every attempt, the loop started at attempt a
with r retries remaining issues exactly attempts a..a+r, sleeps the capped
exponential jittered delay after each failure but the last, and ends failed
at attempt a+r carrying that attempt's fault. -/
theorem retryLoop_allFail (transport : Nat → Sum TransportFault WireBody)
    (mb base : ℚ) (jitter : Nat → ℚ) (f : Nat → TransportFault)
    (hf : ∀ k, transport k = Sum.inl (f k)) :
    ∀ (r a : Nat), retryLoop transport mb base jitter a r
      = { result := VerifyResult.failed (a + r) (f (a + r)),
          sleeps := (List.range' a r).map (fun t => backoffDelay mb base t * jitter t),
          issued := List.range' a (r + 1) } := by
  intro r
  induction r with
  | zero =>
    intro a
    simp [retryLoop, hf a, List.range'_one]
  | succ n ih =>
    intro a
    have e : a + 1 + n = a + (n + 1) := by omega
    simp [retryLoop, hf a, ih (a + 1), e, List.range'_succ]

/-- When the transport faults on attempts a..a+i-1 and returns a response
body on attempt a+i, within the remaining budget, the loop returns the
decoded body, issues exactly attempts a..a+i, and issues nothing after the
response. -/
theorem retryLoop_firstSuccess (transport : Nat → Sum TransportFault WireBody)
    (mb base : ℚ) (jitter : Nat → ℚ) (body : WireBody) :
    ∀ (i a r : Nat), (∀ j, a ≤ j → j < a + i → ∃ ft, transport j = Sum.inl ft) →
      transport (a + i) = Sum.inr body → i ≤ r →
      (retryLoop transport mb base jitter a r).result
          = VerifyResult.output (decodeResponse body)
      ∧ (retryLoop transport mb base jitter a r).issued = List.range' a (i + 1) := by
  intro i
  induction i with
  | zero =>
    intro a r _ hsucc _
    have ha : transport a = Sum.inr body := by simpa using hsucc
    cases r with
    | zero => simp [retryLoop, ha, List.range'_one]
    | succ n => simp [retryLoop, ha, List.range'_one]
  | succ n ih =>
    intro a r hfail hsucc hle
    obtain ⟨ft, hft⟩ := hfail a (Nat.le_refl a) (by omega)
    cases r with
    | zero => omega
    | succ m =>
      have hfail' : ∀ j, a + 1 ≤ j → j < a + 1 + n → ∃ ft, transport j = Sum.inl ft := by
        intro j h1 h2
        exact hfail j (by omega) (by omega)
      have hsucc' : transport (a + 1 + n) = Sum.inr body := by
        have e : a + 1 + n = a + (n + 1) := by omega
        simpa [e] using hsucc
      obtain ⟨hres, hiss⟩ := ih (a + 1) m hfail' hsucc' (by omega)
      constructor
      · simpa [retryLoop, hft] using hres
      · simp [retryLoop, hft, hiss, List.range'_succ]

/-- The retrier result of a received response is never surfaced as
SolutionError: toOutcome produces only ok values or
VerificationFailedError. -/
theorem toOutcome_ne_solutionError (v : VerifyResult) :
    toOutcome v ≠ Except.error PrivateCaptchaError.solutionError := by
  cases v <;> simp [toOutcome]

/-- Every verify call with a non-empty solution surfaces either an ordinary
VerifyOutput or VerificationFailedError, never SolutionError. -/
theorem verify_outcome_ne_solutionError (c : Client)
    (transport : Nat → Sum TransportFault WireBody) (jitter : Nat → ℚ)
    (v : String) (mb : ℚ) (attempts : Nat) (hne : v ≠ "") :
    (c.verify transport jitter v mb attempts).outcome
      ≠ Except.error PrivateCaptchaError.solutionError := by
  simp only [Client.verify, if_neg hne]
  exact toOutcome_ne_solutionError _

/-- C1: when the transport faults on every one of the requested attempts,
verify raises VerificationFailedError whose attempts field equals exactly the
requested attempts parameter, carrying the fault of the last attempt. -/
theorem c1_verify_allFail_attempts (c : Client)
    (transport : Nat → Sum TransportFault WireBody) (jitter : Nat → ℚ)
    (solution : String) (mb : ℚ) (attempts : Nat) (f : Nat → TransportFault)
    (hsol : solution ≠ "") (hatt : 1 ≤ attempts)
    (hf : ∀ k, transport k = Sum.inl (f k)) :
    (c.verify transport jitter solution mb attempts).outcome
      = Except.error (PrivateCaptchaError.verificationFailedError attempts (f attempts)) := by
  have h := retryLoop_allFail transport mb backoffBase jitter f hf (attempts - 1) 1
  have e : 1 + (attempts - 1) = attempts := by omega
  simp [Client.verify, hsol, h, e, toOutcome]

/-- Witness for C1: a transport that times out on every attempt, requested
with attempts = 4, yields VerificationFailedError with attempts = 4 carrying
the last timeout fault. -/
theorem c1_verify_allFail_attempts_witness :
    (testClient.verify (fun _ => Sum.inl TransportFault.timeout) (fun _ => 1) "asdf" 1 4).outcome
      = Except.error (PrivateCaptchaError.verificationFailedError 4 TransportFault.timeout) :=
  c1_verify_allFail_attempts testClient (fun _ => Sum.inl TransportFault.timeout) (fun _ => 1)
    "asdf" 1 4 (fun _ => TransportFault.timeout) (by decide) (by omega) (fun _ => rfl)

/-- C4: a received body that cannot be parsed into the expected structure
decodes to the ordinary value success=false, code=PARSE_RESPONSE_ERROR, and a
verify call receiving such a body returns that value as an ok outcome, not an
exception. -/
theorem c4_unparseable_is_value (c : Client)
    (transport : Nat → Sum TransportFault WireBody) (jitter : Nat → ℚ)
    (solution : String) (mb : ℚ) (attempts : Nat) (raw : String)
    (hsol : solution ≠ "") (htr : transport 1 = Sum.inr (WireBody.unparseable raw)) :
    decodeResponse (WireBody.unparseable raw)
        = { success := false, code := VerifyCode.PARSE_RESPONSE_ERROR }
    ∧ (c.verify transport jitter solution mb attempts).outcome
        = Except.ok { success := false, code := VerifyCode.PARSE_RESPONSE_ERROR } := by
  refine ⟨rfl, ?_⟩
  obtain ⟨hres, _⟩ := retryLoop_firstSuccess transport mb backoffBase jitter
    (WireBody.unparseable raw) 0 1 (attempts - 1)
    (fun j hj1 hj2 => absurd hj2 (by omega)) (by simpa using htr) (Nat.zero_le _)
  simp [Client.verify, hsol, hres, toOutcome, decodeResponse]

/-- Witness for C4: a transport delivering an unparseable body on the first
attempt makes verify return success=false, PARSE_RESPONSE_ERROR as a value. -/
theorem c4_unparseable_is_value_witness :
    decodeResponse (WireBody.unparseable "bad")
        = { success := false, code := VerifyCode.PARSE_RESPONSE_ERROR }
    ∧ (testClient.verify (fun _ => Sum.inr (WireBody.unparseable "bad")) (fun _ => 1)
          "asdf" 1 1).outcome
        = Except.ok { success := false, code := VerifyCode.PARSE_RESPONSE_ERROR } :=
  c4_unparseable_is_value testClient (fun _ => Sum.inr (WireBody.unparseable "bad")) (fun _ => 1)
    "asdf" 1 1 "bad" (by decide) rfl

/-- C6: a received body reporting the recognized benign test-marker condition
decodes to success=true, code=TEST_PROPERTY_ERROR, and a verify call
receiving such a body returns exactly that value. -/
theorem c6_testMarker_success (c : Client)
    (transport : Nat → Sum TransportFault WireBody) (jitter : Nat → ℚ)
    (solution : String) (mb : ℚ) (attempts : Nat)
    (hsol : solution ≠ "") (htr : transport 1 = Sum.inr WireBody.testMarker) :
    decodeResponse WireBody.testMarker
        = { success := true, code := VerifyCode.TEST_PROPERTY_ERROR }
    ∧ (c.verify transport jitter solution mb attempts).outcome
        = Except.ok { success := true, code := VerifyCode.TEST_PROPERTY_ERROR } := by
  refine ⟨rfl, ?_⟩
  obtain ⟨hres, _⟩ := retryLoop_firstSuccess transport mb backoffBase jitter
    WireBody.testMarker 0 1 (attempts - 1)
    (fun j hj1 hj2 => absurd hj2 (by omega)) (by simpa using htr) (Nat.zero_le _)
  simp [Client.verify, hsol, hres, toOutcome, decodeResponse]

/-- Witness for C6: a transport delivering the test-marker body on the first
attempt makes verify return success=true, TEST_PROPERTY_ERROR. -/
theorem c6_testMarker_success_witness :
    decodeResponse WireBody.testMarker
        = { success := true, code := VerifyCode.TEST_PROPERTY_ERROR }
    ∧ (testClient.verify (fun _ => Sum.inr WireBody.testMarker) (fun _ => 1)
          "asdf" 1 1).outcome
        = Except.ok { success := true, code := VerifyCode.TEST_PROPERTY_ERROR } :=
  c6_testMarker_success testClient (fun _ => Sum.inr WireBody.testMarker) (fun _ => 1)
    "asdf" 1 1 (by decide) rfl

/-- C7: an empty solution makes verify raise SolutionError immediately: no
attempt is issued to the transport and no backoff sleep is performed. -/
theorem c7_verify_empty_solution (c : Client)
    (transport : Nat → Sum TransportFault WireBody) (jitter : Nat → ℚ)
    (mb : ℚ) (attempts : Nat) :
    c.verify transport jitter "" mb attempts
      = { outcome := Except.error PrivateCaptchaError.solutionError,
          sleeps := [], issued := [] } := rfl

/-- C8: an api_key that is empty after trimming makes Client construction
fail with APIKeyError, producing no Client instance. -/
theorem c8_mkClient_blank_key (api_key domain : String) (timeout : ℚ) (form_field : String)
    (h : blank api_key = true) :
    mkClient api_key domain timeout form_field
      = Except.error PrivateCaptchaError.apiKeyError := by
  simp [mkClient, h]

/-- Witness for C8: a whitespace-only api_key is rejected at construction. -/
theorem c8_mkClient_blank_key_witness :
    mkClient "  " DEFAULT_DOMAIN 30 DEFAULT_FORM_FIELD
      = Except.error PrivateCaptchaError.apiKeyError :=
  c8_mkClient_blank_key "  " DEFAULT_DOMAIN 30 DEFAULT_FORM_FIELD (by decide)

/-- C2: once the transport delivers a response (attempt k, any body), verify
returns the decoded result immediately: the outcome is the decoder's value —
even when that value reports a logical failure such as PARSE_RESPONSE_ERROR —
and exactly attempts 1..k are issued, so no attempt follows the response. -/
theorem c2_response_returned_immediately (c : Client)
    (transport : Nat → Sum TransportFault WireBody) (jitter : Nat → ℚ)
    (solution : String) (mb : ℚ) (attempts k : Nat) (body : WireBody)
    (hsol : solution ≠ "") (hk1 : 1 ≤ k) (hk2 : k ≤ attempts)
    (hfail : ∀ j, 1 ≤ j → j < k → ∃ ft, transport j = Sum.inl ft)
    (hsucc : transport k = Sum.inr body) :
    (c.verify transport jitter solution mb attempts).outcome
        = Except.ok (decodeResponse body)
    ∧ (c.verify transport jitter solution mb attempts).issued = List.range' 1 k := by
  have e : 1 + (k - 1) = k := by omega
  obtain ⟨hres, hiss⟩ := retryLoop_firstSuccess transport mb backoffBase jitter body
    (k - 1) 1 (attempts - 1)
    (fun j hj1 hj2 => hfail j hj1 (by omega)) (by simpa [e] using hsucc) (by omega)
  have e2 : k - 1 + 1 = k := by omega
  constructor
  · simp [Client.verify, hsol, hres, toOutcome]
  · simp [Client.verify, hsol, hiss, e2]

/-- Witness for C2: with a transport that faults on attempts 1 and 2 and then
delivers an unparseable body on attempt 3 inside a budget of 5, verify
returns the decoded parse-failure value and issues exactly attempts 1..3. -/
theorem c2_response_returned_immediately_witness :
    (testClient.verify
        (fun n => if n < 3 then Sum.inl TransportFault.timeout
                  else Sum.inr (WireBody.unparseable "x")) (fun _ => 1) "asdf" 1 5).outcome
      = Except.ok { success := false, code := VerifyCode.PARSE_RESPONSE_ERROR }
    ∧ (testClient.verify
        (fun n => if n < 3 then Sum.inl TransportFault.timeout
                  else Sum.inr (WireBody.unparseable "x")) (fun _ => 1) "asdf" 1 5).issued
      = [1, 2, 3] := by
  have h := c2_response_returned_immediately testClient
    (fun n => if n < 3 then Sum.inl TransportFault.timeout
              else Sum.inr (WireBody.unparseable "x")) (fun _ => 1) "asdf" 1 5 3
    (WireBody.unparseable "x") (by decide) (by omega) (by omega)
    (fun j hj1 hj2 => ⟨TransportFault.timeout, if_pos hj2⟩) (by decide)
  exact ⟨h.1, by rw [h.2]; decide⟩

/-- C3: in a run whose attempts all fault, the sleep recorded after the
failure of each attempt equals the capped exponential delay
min(max_backoff_seconds, base * 2^(attempt-1)) times that attempt's jitter
draw; the un-jittered delay never exceeds the cap, doubles its uncapped part
from one attempt to the next, and a jitter draw within [1/2, 3/2] keeps the
slept delay within [delay/2, 3*delay/2]. -/
theorem c3_backoff_policy (transport : Nat → Sum TransportFault WireBody)
    (mb base : ℚ) (jitter : Nat → ℚ) (a r : Nat) (f : Nat → TransportFault) (t : Nat)
    (hmb : 0 ≤ mb) (hb : 0 ≤ base) (ht : 1 ≤ t)
    (hf : ∀ k, transport k = Sum.inl (f k))
    (hj : 1/2 ≤ jitter t ∧ jitter t ≤ 3/2) :
    (retryLoop transport mb base jitter a r).sleeps
        = (List.range' a r).map (fun u => backoffDelay mb base u * jitter u)
    ∧ backoffDelay mb base t ≤ mb
    ∧ backoffDelay mb base (t + 1) = min mb (2 * (base * 2 ^ (t - 1)))
    ∧ 1/2 * backoffDelay mb base t ≤ backoffDelay mb base t * jitter t
    ∧ backoffDelay mb base t * jitter t ≤ 3/2 * backoffDelay mb base t := by
  have hd : (0:ℚ) ≤ backoffDelay mb base t := le_min hmb (by positivity)
  refine ⟨?_, min_le_left _ _, ?_, ?_, ?_⟩
  · rw [retryLoop_allFail transport mb base jitter f hf r a]
  · have e : t + 1 - 1 = (t - 1) + 1 := by omega
    have h2 : base * 2 ^ (t + 1 - 1) = 2 * (base * 2 ^ (t - 1)) := by
      rw [e, pow_succ]; ring
    unfold backoffDelay
    rw [h2]
  · nlinarith [hj.1, hd]
  · nlinarith [hj.2, hd]

/-- Witness for C3: an all-faulting transport with cap 1, base 1, unit jitter,
starting at attempt 1 with two retries remaining, sleeps exactly [1, 1], and
the delay for attempt 2 is capped at 1. -/
theorem c3_backoff_policy_witness :
    (retryLoop (fun _ => Sum.inl TransportFault.timeout) 1 1 (fun _ => 1) 1 2).sleeps = [1, 1]
    ∧ backoffDelay 1 1 2 ≤ 1 := by
  have h := c3_backoff_policy (fun _ => Sum.inl TransportFault.timeout) 1 1 (fun _ => 1) 1 2
    (fun _ => TransportFault.timeout) 2 (by norm_num) (by norm_num) (by omega)
    (fun _ => rfl) (by norm_num)
  refine ⟨?_, h.2.1⟩
  rw [h.1]
  norm_num [List.range'_succ, backoffDelay]

/-- C5: verify_request raises SolutionError exactly when the configured
form_field key is absent from the mapping or its value is empty; when a
non-empty value is found, the whole run equals verify applied to that value
unchanged — no independent validation, retry or parsing. -/
theorem c5_verify_request_glue (c : Client)
    (transport : Nat → Sum TransportFault WireBody) (jitter : Nat → ℚ)
    (fields : String → Option String) (mb : ℚ) (attempts : Nat) :
    ((c.verify_request transport jitter fields mb attempts).outcome
        = Except.error PrivateCaptchaError.solutionError
      ↔ (fields c.form_field = none ∨ fields c.form_field = some ""))
    ∧ ∀ v, fields c.form_field = some v → v ≠ "" →
        c.verify_request transport jitter fields mb attempts
          = c.verify transport jitter v mb attempts := by
  constructor
  · cases hv : fields c.form_field with
    | none => simp [Client.verify_request, hv, noNetworkRun]
    | some v =>
      by_cases he : v = ""
      · subst he
        simp [Client.verify_request, hv, noNetworkRun]
      · simp only [Client.verify_request, hv, if_neg he]
        constructor
        · intro hout
          exact absurd hout
            (verify_outcome_ne_solutionError c transport jitter v mb attempts he)
        · intro hcases
          rcases hcases with h | h
          · exact absurd h (by simp)
          · exact absurd (Option.some_injective _ h) he
  · intro v hv hne
    simp [Client.verify_request, hv, hne]

/-- Witness for C5: with the payload stored under the default form field, a
default-configured client's verify_request run equals the verify run on the
found value unchanged. -/
theorem c5_verify_request_glue_witness :
    testClient.verify_request (fun _ => Sum.inl TransportFault.timeout) (fun _ => 1)
        (fun k => if k = DEFAULT_FORM_FIELD then some "payload" else none) 1 2
      = testClient.verify (fun _ => Sum.inl TransportFault.timeout) (fun _ => 1) "payload" 1 2 := by
  have h := c5_verify_request_glue testClient (fun _ => Sum.inl TransportFault.timeout)
    (fun _ => 1) (fun k => if k = DEFAULT_FORM_FIELD then some "payload" else none) 1 2
  exact h.2 "payload" (by decide) (by decide)

/-- C9: a non-empty solution, however shaped, passes input validation and the
call proceeds to the transport stage; against a transport that faults on
every attempt, the outcome is VerificationFailedError, not SolutionError. -/
theorem c9_nonempty_reaches_transport (c : Client)
    (transport : Nat → Sum TransportFault WireBody) (jitter : Nat → ℚ)
    (solution : String) (mb : ℚ) (attempts : Nat) (f : Nat → TransportFault)
    (hsol : solution ≠ "") (hatt : 1 ≤ attempts)
    (hf : ∀ k, transport k = Sum.inl (f k)) :
    (c.verify transport jitter solution mb attempts).issued = List.range' 1 attempts
    ∧ (c.verify transport jitter solution mb attempts).outcome
        = Except.error (PrivateCaptchaError.verificationFailedError attempts (f attempts))
    ∧ (c.verify transport jitter solution mb attempts).outcome
        ≠ Except.error PrivateCaptchaError.solutionError := by
  have h := retryLoop_allFail transport mb backoffBase jitter f hf (attempts - 1) 1
  have e : 1 + (attempts - 1) = attempts := by omega
  have e2 : attempts - 1 + 1 = attempts := by omega
  refine ⟨?_, ?_, ?_⟩
  · simp [Client.verify, hsol, h, e2]
  · simp [Client.verify, hsol, h, e, toOutcome]
  · simp [Client.verify, hsol, h, e, toOutcome]

/-- Witness for C9: the solution string asdf, which lacks the documented
dot-separated shape, reaches the transport (attempts 1..4 issued) and the
call surfaces VerificationFailedError, not SolutionError. -/
theorem c9_nonempty_reaches_transport_witness :
    (testClient.verify (fun _ => Sum.inl TransportFault.dnsFailure) (fun _ => 1)
        "asdf" 1 4).issued = [1, 2, 3, 4]
    ∧ (testClient.verify (fun _ => Sum.inl TransportFault.dnsFailure) (fun _ => 1)
        "asdf" 1 4).outcome
      = Except.error (PrivateCaptchaError.verificationFailedError 4 TransportFault.dnsFailure) := by
  have h := c9_nonempty_reaches_transport testClient
    (fun _ => Sum.inl TransportFault.dnsFailure) (fun _ => 1) "asdf" 1 4
    (fun _ => TransportFault.dnsFailure) (by decide) (by omega) (fun _ => rfl)
  exact ⟨by rw [h.1]; decide, h.2.1⟩

end PrivateCaptcha
